import Mathlib

/-!
Shallow embedding of the SolarQuote UK solar calculation engine
(`src/lib/solar/calculations.ts` and `src/lib/solar/constants.ts`) and of the
lead-scoring module (`src/lib/leads/scoring.ts`).

Modelling conventions: JavaScript numbers are rationals; `Math.round` is
`jsRound` (half rounds toward positive infinity), `Math.ceil` is `jsCeil`;
the JavaScript `Infinity` payback sentinel is the `none` of an `Option ℚ`;
a JavaScript `x || d` default over numbers is `jsOrDefault` (both a missing
value and `0` are falsy); a string-keyed record access that can miss returns
an `Option ℚ`, whose `none` is JavaScript `undefined`.  The metadata's
`calculatedAt` wall-clock timestamp is omitted (no claim mentions it).
-/

namespace Solar

/-- JavaScript `Math.round`: rounds half toward positive infinity. -/
def jsRound (q : ℚ) : ℤ := ⌊q + 1 / 2⌋

/-- JavaScript `Math.ceil`. -/
def jsCeil (q : ℚ) : ℤ := ⌈q⌉

/-- JavaScript `x || d` over an optional number: `undefined` and `0` are falsy
and fall to the default `d`. -/
def jsOrDefault (x : Option ℚ) (d : ℚ) : ℚ :=
  match x with
  | none => d
  | some v => if v = 0 then d else v

/-- JavaScript truthiness of an optional number (`x ? a : b`). -/
def jsTruthyNum (x : Option ℚ) : Bool :=
  match x with
  | none => false
  | some v => v != 0

/-- JavaScript truthiness of an optional string: present and non-empty. -/
def jsTruthyStr (x : Option String) : Bool :=
  match x with
  | none => false
  | some s => !s.isEmpty

/-- Lookup in a string-keyed JavaScript object modelled as an association
list; `none` is JavaScript `undefined`. -/
def lookupStr (tbl : List (String × ℚ)) (k : String) : Option ℚ :=
  (tbl.find? (fun e => e.1 == k)).map (fun e => e.2)

/-- RoofOrientation from `types/solar.ts`. -/
inductive RoofOrientation where
  | N
  | NE
  | E
  | SE
  | S
  | SW
  | W
  | NW
  | flat
  deriving DecidableEq

/-- HomeOccupancy from `types/solar.ts`; `variance` in the source is the
literal `'variable'`, renamed because `variable` is a Lean keyword. -/
inductive HomeOccupancy where
  | always
  | daytime
  | evening
  | variance
  deriving DecidableEq

/-- UKEnergyConfig numeric fields (`constants.ts`); the `lastUpdated` and
`source` string tags carry no numeric content and are omitted. -/
structure UKEnergyConfig where
  electricityRatePence : ℚ
  segExportRatePence : ℚ
  standingChargePence : ℚ

/-- UK_ENERGY_CONFIG from `constants.ts` (Ofgem price cap Q1 2026). -/
def UK_ENERGY_CONFIG : UKEnergyConfig where
  electricityRatePence := 27.69
  segExportRatePence := 15.0
  standingChargePence := 54.7

/-- SystemCostConfig from `types/solar.ts`. -/
structure SystemCostConfig where
  costPerKwpSmall : ℚ
  costPerKwpMedium : ℚ
  costPerKwpLarge : ℚ
  smallMaxKwp : ℚ
  mediumMaxKwp : ℚ

/-- SYSTEM_COST_CONFIG from `constants.ts`. -/
def SYSTEM_COST_CONFIG : SystemCostConfig where
  costPerKwpSmall := 1500
  costPerKwpMedium := 1300
  costPerKwpLarge := 1100
  smallMaxKwp := 3
  mediumMaxKwp := 6

/-- SolarConfig from `types/solar.ts`: the physical constants and the two
enumerated factor tables. -/
structure SolarConfig where
  gridCarbonFactor : ℚ
  systemLossFactor : ℚ
  panelAreaPerKwp : ℚ
  annualDegradation : ℚ
  panelWattage : ℚ
  orientationFactors : RoofOrientation → ℚ
  selfConsumptionFactors : HomeOccupancy → ℚ
  ukAverageIrradiance : ℚ

/-- SOLAR_CONFIG from `constants.ts`. -/
def SOLAR_CONFIG : SolarConfig where
  gridCarbonFactor := 0.233
  systemLossFactor := 0.86
  panelAreaPerKwp := 5
  annualDegradation := 0.005
  panelWattage := 400
  orientationFactors := fun o =>
    match o with
    | .S => 1
    | .SE => 0.95
    | .SW => 0.95
    | .E => 0.85
    | .W => 0.85
    | .NE => 0.7
    | .NW => 0.7
    | .N => 0.55
    | .flat => 0.9
  selfConsumptionFactors := fun o =>
    match o with
    | .always => 0.45
    | .daytime => 0.5
    | .evening => 0.25
    | .variance => 0.35
  ukAverageIrradiance := 1000

/-- The `orientationFactors` record of `SOLAR_CONFIG` viewed as a raw
string-keyed JavaScript object, as a type-unsafe runtime access would see it:
a non-enumerated key reads as `undefined` (`none`).  The record holds no
`default` entry. -/
def orientationFactorsRaw : List (String × ℚ) :=
  [("S", 1), ("SE", 0.95), ("SW", 0.95), ("E", 0.85), ("W", 0.85),
   ("NE", 0.7), ("NW", 0.7), ("N", 0.55), ("flat", 0.9)]

/-- The `selfConsumptionFactors` record of `SOLAR_CONFIG` viewed as a raw
string-keyed JavaScript object; no `default` entry. -/
def selfConsumptionFactorsRaw : List (String × ℚ) :=
  [("always", 0.45), ("daytime", 0.5), ("evening", 0.25), ("variable", 0.35)]

/-- String key of an enumerated orientation, as TypeScript stores it. -/
def RoofOrientation.key : RoofOrientation → String
  | .N => "N"
  | .NE => "NE"
  | .E => "E"
  | .SE => "SE"
  | .S => "S"
  | .SW => "SW"
  | .W => "W"
  | .NW => "NW"
  | .flat => "flat"

/-- String key of an enumerated occupancy, as TypeScript stores it. -/
def HomeOccupancy.key : HomeOccupancy → String
  | .always => "always"
  | .daytime => "daytime"
  | .evening => "evening"
  | .variance => "variable"

/-- The raw record access `SOLAR_CONFIG.orientationFactors[orientation]` for
an arbitrary runtime string key. -/
def getOrientationFactorRaw (orientation : String) : Option ℚ :=
  lookupStr orientationFactorsRaw orientation

/-- The raw record access `SOLAR_CONFIG.selfConsumptionFactors[occupancy]`
for an arbitrary runtime string key. -/
def getSelfConsumptionRaw (occupancy : String) : Option ℚ :=
  lookupStr selfConsumptionFactorsRaw occupancy

/-- REGIONAL_IRRADIANCE from `constants.ts`, including its `default` key. -/
def REGIONAL_IRRADIANCE : List (String × ℚ) :=
  [("South West", 1100), ("South East", 1050), ("London", 1000),
   ("West Midlands", 950), ("East Midlands", 950), ("East of England", 1000),
   ("North West", 900), ("North East", 900), ("Yorkshire", 920),
   ("Wales", 950),
   ("Scotland South", 900), ("Scotland Central", 880), ("Scotland North", 850),
   ("Scottish Highlands", 800),
   ("Northern Ireland", 900),
   ("default", 950)]

/-- getRegionalIrradiance (`calculations.ts`):
`REGIONAL_IRRADIANCE[region] || REGIONAL_IRRADIANCE.default` — a missing key
(JavaScript `undefined`) or a zero entry is falsy and falls to the table's
`default` entry. -/
def getRegionalIrradiance (region : String) : ℚ :=
  jsOrDefault (lookupStr REGIONAL_IRRADIANCE region)
    ((lookupStr REGIONAL_IRRADIANCE "default").getD 0)

/-- PITCH_FACTORS from `constants.ts` as the sorted (pitch, factor) pair list
that `Object.keys(PITCH_FACTORS).map(Number).sort((a, b) => a - b)` yields. -/
def PITCH_FACTORS : List (ℚ × ℚ) :=
  [(0, 0.9), (10, 0.94), (15, 0.96), (20, 0.98), (25, 0.99), (30, 1),
   (35, 1), (40, 0.99), (45, 0.97), (50, 0.94), (60, 0.88), (70, 0.8),
   (80, 0.7), (90, 0.55)]

/-- The scanning loop of `getPitchFactor`: the first adjacent anchor pair
whose closed interval contains the pitch gives the linear interpolation;
`none` when no interval matched (the source then falls back to
`PITCH_FACTORS[35]`). -/
def pitchScan : List (ℚ × ℚ) → ℚ → Option ℚ
  | (l, fl) :: (u, fu) :: rest, p =>
    if l ≤ p ∧ p ≤ u then some (fl + (p - l) / (u - l) * (fu - fl))
    else pitchScan ((u, fu) :: rest) p
  | _, _ => none

/-- getPitchFactor from `constants.ts`: clamp to [0, 90], scan the sorted
anchors, interpolate; default `PITCH_FACTORS[35] = 1` if no interval hit. -/
def getPitchFactor (pitch : ℚ) : ℚ :=
  let clampedPitch := max 0 (min 90 pitch)
  (pitchScan PITCH_FACTORS clampedPitch).getD 1

/-- calculateMaxSystemSize (`calculations.ts`). -/
def calculateMaxSystemSize (roofArea : ℚ) : ℚ :=
  (jsRound (roofArea / SOLAR_CONFIG.panelAreaPerKwp * 10) : ℚ) / 10

/-- calculateRecommendedSize (`calculations.ts`). -/
def calculateRecommendedSize (annualUsage irradiance orientationFactor
    pitchFactor shadingFactor : ℚ) : ℚ :=
  let effectiveIrradiance := irradiance * orientationFactor * pitchFactor *
    shadingFactor * SOLAR_CONFIG.systemLossFactor
  let targetGeneration := annualUsage * 0.9
  let peakSunHours := effectiveIrradiance
  (jsRound (targetGeneration / peakSunHours * 10) : ℚ) / 10

/-- determineFinalSystemSize (`calculations.ts`): the smaller of recommended
and maximum, rounded to 0.5 kWp increments. -/
def determineFinalSystemSize (recommendedKwp maxKwp : ℚ) : ℚ :=
  (jsRound (min recommendedKwp maxKwp * 2) : ℚ) / 2

/-- calculatePanelCount (`calculations.ts`). -/
def calculatePanelCount (systemSizeKwp : ℚ) : ℤ :=
  jsCeil (systemSizeKwp * 1000 / SOLAR_CONFIG.panelWattage)

/-- calculateAnnualGeneration (`calculations.ts`). -/
def calculateAnnualGeneration (systemSizeKwp irradiance orientationFactor
    pitchFactor shadingFactor : ℚ) : ℤ :=
  jsRound (systemSizeKwp * irradiance * orientationFactor * pitchFactor *
    shadingFactor * SOLAR_CONFIG.systemLossFactor)

/-- getMonthlyDistribution (`calculations.ts`). -/
def getMonthlyDistribution : List ℚ :=
  [0.03, 0.05, 0.08, 0.1, 0.12, 0.13, 0.13, 0.11, 0.09, 0.07, 0.05, 0.04]

/-- monthNames local of calculateMonthlyGeneration. -/
def monthNames : List String :=
  ["January", "February", "March", "April", "May", "June", "July", "August",
   "September", "October", "November", "December"]

/-- MonthlyGeneration from `types/solar.ts`. -/
structure MonthlyGeneration where
  month : ℕ
  monthName : String
  generationKwh : ℤ
  selfConsumedKwh : ℤ
  exportedKwh : ℤ
  deriving DecidableEq

/-- calculateMonthlyGeneration (`calculations.ts`): split the annual figure
by the fixed distribution, then split each month with the annual
self-consumption ratio. -/
def calculateMonthlyGeneration (annualGeneration selfConsumptionRatio : ℚ) :
    List MonthlyGeneration :=
  getMonthlyDistribution.enum.map fun fi =>
    let generationKwh := jsRound (annualGeneration * fi.2)
    let selfConsumedKwh := jsRound ((generationKwh : ℚ) * selfConsumptionRatio)
    let exportedKwh := generationKwh - selfConsumedKwh
    { month := fi.1 + 1
      monthName := monthNames.getD fi.1 ""
      generationKwh := generationKwh
      selfConsumedKwh := selfConsumedKwh
      exportedKwh := exportedKwh }

/-- calculateSelfConsumption (`calculations.ts`): direct table lookup. -/
def calculateSelfConsumption (occupancy : HomeOccupancy) : ℚ :=
  SOLAR_CONFIG.selfConsumptionFactors occupancy

/-- calculateAnnualSavings (`calculations.ts`). -/
def calculateAnnualSavings (selfConsumedKwh electricityRatePence : ℚ) : ℚ :=
  (jsRound (selfConsumedKwh * electricityRatePence) : ℚ) / 100

/-- calculateExportEarnings (`calculations.ts`). -/
def calculateExportEarnings (exportedKwh exportRatePence : ℚ) : ℚ :=
  (jsRound (exportedKwh * exportRatePence) : ℚ) / 100

/-- calculateSystemCost (`calculations.ts`): tiered cost per kWp. -/
def calculateSystemCost (systemSizeKwp : ℚ) : ℤ :=
  let costPerKwp : ℚ :=
    if systemSizeKwp ≤ SYSTEM_COST_CONFIG.smallMaxKwp then
      SYSTEM_COST_CONFIG.costPerKwpSmall
    else if systemSizeKwp ≤ SYSTEM_COST_CONFIG.mediumMaxKwp then
      SYSTEM_COST_CONFIG.costPerKwpMedium
    else
      SYSTEM_COST_CONFIG.costPerKwpLarge
  jsRound (systemSizeKwp * costPerKwp)

/-- calculatePaybackPeriod (`calculations.ts`); `none` is the JavaScript
`Infinity` sentinel returned when the benefit is not positive. -/
def calculatePaybackPeriod (systemCost annualBenefit : ℚ) : Option ℚ :=
  if annualBenefit ≤ 0 then none
  else some ((jsRound (systemCost / annualBenefit * 10) : ℚ) / 10)

/-- The accumulation loop of calculateROI25Years: 25 years of benefit, each
year's generation decayed by `(1 - annualDegradation)^(year - 1)`. -/
def roiTotalBenefit (annualGeneration selfConsumptionRatio
    electricityRatePence exportRatePence : ℚ) : ℚ :=
  (List.range 25).foldl
    (fun totalBenefit yearIdx =>
      let yearGeneration :=
        annualGeneration * (1 - SOLAR_CONFIG.annualDegradation) ^ yearIdx
      let selfConsumed := yearGeneration * selfConsumptionRatio
      let exported := yearGeneration - selfConsumed
      let savings := selfConsumed * electricityRatePence / 100
      let exportEarnings := exported * exportRatePence / 100
      totalBenefit + (savings + exportEarnings)) 0

/-- calculateROI25Years (`calculations.ts`). -/
def calculateROI25Years (annualGeneration selfConsumptionRatio
    electricityRatePence exportRatePence systemCost : ℚ) : ℤ :=
  jsRound (roiTotalBenefit annualGeneration selfConsumptionRatio
    electricityRatePence exportRatePence - systemCost)

/-- calculateCO2Savings (`calculations.ts`). -/
def calculateCO2Savings (annualGenerationKwh : ℚ) : ℤ :=
  jsRound (annualGenerationKwh * SOLAR_CONFIG.gridCarbonFactor)

/-- The accumulation loop of calculateCO2Savings25Years. -/
def co2TotalGeneration (annualGeneration : ℚ) : ℚ :=
  (List.range 25).foldl
    (fun totalGeneration yearIdx =>
      totalGeneration +
        annualGeneration * (1 - SOLAR_CONFIG.annualDegradation) ^ yearIdx) 0

/-- calculateCO2Savings25Years (`calculations.ts`). -/
def calculateCO2Savings25Years (annualGeneration : ℚ) : ℤ :=
  jsRound (co2TotalGeneration annualGeneration * SOLAR_CONFIG.gridCarbonFactor)

/-- getOrientationFactor (`calculations.ts`): direct table lookup. -/
def getOrientationFactor (orientation : RoofOrientation) : ℚ :=
  SOLAR_CONFIG.orientationFactors orientation

/-- Irradiance source tag of the calculation metadata. -/
inductive IrradianceSource where
  | PVGIS
  | UK_AVERAGE
  deriving DecidableEq

/-- CalculatorInputs from `types/solar.ts`; the optional rate overrides are
`Option`s (`none` = field absent). -/
structure CalculatorInputs where
  postcode : String
  latitude : ℚ
  longitude : ℚ
  roofOrientation : RoofOrientation
  roofPitch : ℚ
  roofArea : ℚ
  shadingFactor : ℚ
  annualElectricityUsage : ℚ
  homeOccupancy : HomeOccupancy
  electricityUnitRate : Option ℚ
  exportTariffRate : Option ℚ

/-- CalculationMetadata from `types/solar.ts` (without the `calculatedAt`
wall-clock timestamp). -/
structure CalculationMetadata where
  irradianceUsed : ℚ
  irradianceSource : IrradianceSource
  electricityRate : ℚ
  exportRate : ℚ
  systemLossFactor : ℚ
  orientationFactor : ℚ
  deriving DecidableEq

/-- CalculatorResults from `types/solar.ts`; `paybackPeriod` is `none` when
the source stores `Infinity`. -/
structure CalculatorResults where
  recommendedSystemSize : ℚ
  numberOfPanels : ℤ
  estimatedAnnualGeneration : ℤ
  monthlyGeneration : List MonthlyGeneration
  selfConsumptionRatio : ℚ
  selfConsumedKwh : ℤ
  exportedKwh : ℤ
  annualSavings : ℚ
  annualExportEarnings : ℚ
  totalAnnualBenefit : ℚ
  estimatedSystemCost : ℤ
  paybackPeriod : Option ℚ
  roi25Years : ℤ
  co2SavedAnnually : ℤ
  co2Saved25Years : ℤ
  metadata : CalculationMetadata
  deriving DecidableEq

/-- calculateSolarEstimate (`calculations.ts`): the main pipeline. -/
def calculateSolarEstimate (inputs : CalculatorInputs)
    (irradiance : Option ℚ) : CalculatorResults :=
  let orientationFactor := getOrientationFactor inputs.roofOrientation
  let pitchFactor := getPitchFactor inputs.roofPitch
  let shadingFactor := inputs.shadingFactor
  let usedIrradiance := jsOrDefault irradiance SOLAR_CONFIG.ukAverageIrradiance
  let irradianceSource :=
    if jsTruthyNum irradiance then IrradianceSource.PVGIS
    else IrradianceSource.UK_AVERAGE
  let electricityRate :=
    jsOrDefault inputs.electricityUnitRate UK_ENERGY_CONFIG.electricityRatePence
  let exportRate :=
    jsOrDefault inputs.exportTariffRate UK_ENERGY_CONFIG.segExportRatePence
  let maxSize := calculateMaxSystemSize inputs.roofArea
  let recommendedSize := calculateRecommendedSize inputs.annualElectricityUsage
    usedIrradiance orientationFactor pitchFactor shadingFactor
  let finalSize := determineFinalSystemSize recommendedSize maxSize
  let panelCount := calculatePanelCount finalSize
  let annualGeneration := calculateAnnualGeneration finalSize usedIrradiance
    orientationFactor pitchFactor shadingFactor
  let selfConsumptionRatio := calculateSelfConsumption inputs.homeOccupancy
  let selfConsumedKwh := jsRound ((annualGeneration : ℚ) * selfConsumptionRatio)
  let exportedKwh := annualGeneration - selfConsumedKwh
  let monthlyGeneration :=
    calculateMonthlyGeneration (annualGeneration : ℚ) selfConsumptionRatio
  let annualSavings := calculateAnnualSavings (selfConsumedKwh : ℚ) electricityRate
  let annualExportEarnings := calculateExportEarnings (exportedKwh : ℚ) exportRate
  let totalAnnualBenefit := annualSavings + annualExportEarnings
  let systemCost := calculateSystemCost finalSize
  let paybackPeriod := calculatePaybackPeriod (systemCost : ℚ) totalAnnualBenefit
  let roi25Years := calculateROI25Years (annualGeneration : ℚ)
    selfConsumptionRatio electricityRate exportRate (systemCost : ℚ)
  let co2SavedAnnually := calculateCO2Savings (annualGeneration : ℚ)
  let co2Saved25Years := calculateCO2Savings25Years (annualGeneration : ℚ)
  { recommendedSystemSize := finalSize
    numberOfPanels := panelCount
    estimatedAnnualGeneration := annualGeneration
    monthlyGeneration := monthlyGeneration
    selfConsumptionRatio := selfConsumptionRatio
    selfConsumedKwh := selfConsumedKwh
    exportedKwh := exportedKwh
    annualSavings := annualSavings
    annualExportEarnings := annualExportEarnings
    totalAnnualBenefit := totalAnnualBenefit
    estimatedSystemCost := systemCost
    paybackPeriod := paybackPeriod
    roi25Years := roi25Years
    co2SavedAnnually := co2SavedAnnually
    co2Saved25Years := co2Saved25Years
    metadata :=
      { irradianceUsed := usedIrradiance
        irradianceSource := irradianceSource
        electricityRate := electricityRate
        exportRate := exportRate
        systemLossFactor := SOLAR_CONFIG.systemLossFactor
        orientationFactor := orientationFactor } }

/-- LeadContact from `types/solar.ts` (the optional
`preferredContactTime` field is never read by the scorer and is omitted). -/
structure LeadContact where
  email : String
  phone : Option String
  name : Option String

/-- Value carried by a score factor: the source pushes numbers (one of them
possibly `Infinity`, here `inf`) and booleans into the same field. -/
inductive FactorValue where
  | num (value : ℚ)
  | inf
  | bool (value : Bool)
  deriving DecidableEq

/-- LeadScoreFactor from `types/solar.ts`. -/
structure LeadScoreFactor where
  name : String
  value : FactorValue
  points : ℤ
  deriving DecidableEq

/-- Lead category literals `'hot' | 'warm' | 'cool'`. -/
inductive LeadCategory where
  | hot
  | warm
  | cool
  deriving DecidableEq

/-- LeadScore from `types/solar.ts`. -/
structure LeadScore where
  totalScore : ℤ
  category : LeadCategory
  factors : List LeadScoreFactor
  deriving DecidableEq

/-- SCORE_THRESHOLDS from `scoring.ts`. -/
structure ScoreThresholds where
  hot : ℤ
  warm : ℤ

/-- SCORE_THRESHOLDS values. -/
def SCORE_THRESHOLDS : ScoreThresholds where
  hot := 70
  warm := 40

/-- SCORING_WEIGHTS from `scoring.ts`. -/
structure ScoringWeights where
  systemSize : ℤ
  paybackPeriod : ℤ
  annualSavings : ℤ
  roofArea : ℤ
  phoneProvided : ℤ
  nameProvided : ℤ
  selfConsumption : ℤ
  usageLevel : ℤ

/-- SCORING_WEIGHTS values. -/
def SCORING_WEIGHTS : ScoringWeights where
  systemSize := 20
  paybackPeriod := 20
  annualSavings := 15
  roofArea := 10
  phoneProvided := 15
  nameProvided := 5
  selfConsumption := 10
  usageLevel := 5

/-- Factor 1 of calculateLeadScore (`scoring.ts`): system size, capped at 20
points. -/
def systemSizePoints (results : CalculatorResults) : ℤ :=
  min SCORING_WEIGHTS.systemSize
    (jsRound (results.recommendedSystemSize / 6 * (SCORING_WEIGHTS.systemSize : ℚ)))

/-- Factor 2 of calculateLeadScore: payback period (inverse scoring).  The
comparison mirrors JavaScript on `Infinity` (`none`): `Infinity <= 7` is
false and `Infinity >= 15` is true, so that factor scores 0 points. -/
def paybackScore (results : CalculatorResults) : ℤ :=
  match results.paybackPeriod with
  | none => 0
  | some payback =>
    if payback ≤ 7 then SCORING_WEIGHTS.paybackPeriod
    else if 15 ≤ payback then 0
    else jsRound ((15 - payback) / 8 * (SCORING_WEIGHTS.paybackPeriod : ℚ))

/-- Factor 3 of calculateLeadScore: annual savings (total benefit), capped at
15 points. -/
def savingsPoints (results : CalculatorResults) : ℤ :=
  min SCORING_WEIGHTS.annualSavings
    (jsRound (results.totalAnnualBenefit / 500 * (SCORING_WEIGHTS.annualSavings : ℚ)))

/-- Factor 4 of calculateLeadScore: phone provided (binary). -/
def phonePoints (contact : LeadContact) : ℤ :=
  if jsTruthyStr contact.phone then SCORING_WEIGHTS.phoneProvided else 0

/-- Factor 5 of calculateLeadScore: name provided (binary). -/
def namePoints (contact : LeadContact) : ℤ :=
  if jsTruthyStr contact.name then SCORING_WEIGHTS.nameProvided else 0

/-- Factor 6 of calculateLeadScore: self-consumption ratio (uncapped in the
source: the round of ratio times 10). -/
def selfConsumptionPoints (results : CalculatorResults) : ℤ :=
  jsRound (results.selfConsumptionRatio * (SCORING_WEIGHTS.selfConsumption : ℚ))

/-- Factor 7 of calculateLeadScore: roof area adequacy via panel count. -/
def roofAreaPoints (results : CalculatorResults) : ℤ :=
  if 12 ≤ results.numberOfPanels then SCORING_WEIGHTS.roofArea
  else jsRound ((results.numberOfPanels : ℚ) / 12 * (SCORING_WEIGHTS.roofArea : ℚ))

/-- Factor 8 of calculateLeadScore: usage level via annual generation, capped
at 5 points. -/
def usagePoints (results : CalculatorResults) : ℤ :=
  min SCORING_WEIGHTS.usageLevel
    (jsRound ((results.estimatedAnnualGeneration : ℚ) / 4000 *
      (SCORING_WEIGHTS.usageLevel : ℚ)))

/-- Accumulated `totalScore` of calculateLeadScore: the eight factors in
source order. -/
def leadTotalScore (results : CalculatorResults) (contact : LeadContact) : ℤ :=
  systemSizePoints results + paybackScore results + savingsPoints results +
    phonePoints contact + namePoints contact + selfConsumptionPoints results +
    roofAreaPoints results + usagePoints results

/-- calculateLeadScore (`scoring.ts`). -/
def calculateLeadScore (results : CalculatorResults) (contact : LeadContact) :
    LeadScore :=
  let totalScore := leadTotalScore results contact
  let category :=
    if SCORE_THRESHOLDS.hot ≤ totalScore then LeadCategory.hot
    else if SCORE_THRESHOLDS.warm ≤ totalScore then LeadCategory.warm
    else LeadCategory.cool
  { totalScore := totalScore
    category := category
    factors :=
      [{ name := "System Size",
         value := .num results.recommendedSystemSize,
         points := systemSizePoints results },
       { name := "Payback Period",
         value := match results.paybackPeriod with
           | none => .inf
           | some p => .num p,
         points := paybackScore results },
       { name := "Annual Savings",
         value := .num results.totalAnnualBenefit,
         points := savingsPoints results },
       { name := "Phone Provided",
         value := .bool (jsTruthyStr contact.phone),
         points := phonePoints contact },
       { name := "Name Provided",
         value := .bool (jsTruthyStr contact.name),
         points := namePoints contact },
       { name := "Self-Consumption",
         value := .num results.selfConsumptionRatio,
         points := selfConsumptionPoints results },
       { name := "Roof Area",
         value := .num (results.numberOfPanels : ℚ),
         points := roofAreaPoints results },
       { name := "Usage Level",
         value := .num (results.estimatedAnnualGeneration : ℚ),
         points := usagePoints results }] }

/-- Adjacent (lower, upper) anchor pairs of the pitch-factor table. -/
def pitchIntervals : List ((ℚ × ℚ) × (ℚ × ℚ)) :=
  PITCH_FACTORS.zip PITCH_FACTORS.tail

/-- Undegraded first-year benefit of the ROI loop (the year-1 term of
calculateROI25Years, where the decay power is zero):
`(selfConsumed * electricityRate + exported * exportRate) / 100`. -/
def firstYearBenefit (annualGeneration selfConsumptionRatio
    electricityRatePence exportRatePence : ℚ) : ℚ :=
  (annualGeneration * selfConsumptionRatio * electricityRatePence +
    (annualGeneration - annualGeneration * selfConsumptionRatio) *
      exportRatePence) / 100

/-- Sum of the 25 yearly decay factors `(1 - annualDegradation)^(year-1)` of
the ROI loop. -/
def degradedYearsSum : ℚ :=
  (List.range 25).foldl
    (fun acc yearIdx => acc + (1 - SOLAR_CONFIG.annualDegradation) ^ yearIdx) 0

/-- Metadata filler for hand-built `CalculatorResults` test fixtures. -/
def mdZero : CalculationMetadata where
  irradianceUsed := 0
  irradianceSource := .UK_AVERAGE
  electricityRate := 0
  exportRate := 0
  systemLossFactor := 0
  orientationFactor := 0

/-- Results fixture of the spec's lead-scoring example: totalAnnualBenefit
745, recommendedSystemSize 6, paybackPeriod 6, numberOfPanels 15,
estimatedAnnualGeneration 5000, selfConsumptionRatio 0.5. -/
def c4Results : CalculatorResults where
  recommendedSystemSize := 6
  numberOfPanels := 15
  estimatedAnnualGeneration := 5000
  monthlyGeneration := []
  selfConsumptionRatio := 0.5
  selfConsumedKwh := 0
  exportedKwh := 0
  annualSavings := 0
  annualExportEarnings := 0
  totalAnnualBenefit := 745
  estimatedSystemCost := 0
  paybackPeriod := some 6
  roi25Years := 0
  co2SavedAnnually := 0
  co2Saved25Years := 0
  metadata := mdZero

/-- Contact with phone and name present. -/
def c4FullContact : LeadContact where
  email := "lead@example.com"
  phone := some "07700900000"
  name := some "Alex"

/-- Contact with only an email. -/
def c4EmailContact : LeadContact where
  email := "lead@example.com"
  phone := none
  name := none

/-- Arbitrary `CalculatorResults` value (not engine-produced) with a negative
recommended system size; all other scoring inputs are zero or worthless. -/
def c3BadResults : CalculatorResults :=
  { c4Results with
    recommendedSystemSize := -6
    totalAnnualBenefit := 0
    selfConsumptionRatio := 0
    numberOfPanels := 0
    estimatedAnnualGeneration := 5
    paybackPeriod := some 100 }

/-- End-to-end example inputs of the spec: London coordinates, south-facing,
35° pitch, 30 m², unshaded, 3500 kWh/year, daytime occupancy, no rate
overrides. -/
def exampleInputs : CalculatorInputs where
  postcode := "SW1A 1AA"
  latitude := 51.5
  longitude := -0.14
  roofOrientation := .S
  roofPitch := 35
  roofArea := 30
  shadingFactor := 1
  annualElectricityUsage := 3500
  homeOccupancy := .daytime
  electricityUnitRate := none
  exportTariffRate := none

/-! Helper lemmas about rounding. -/

theorem jsRound_nonneg {q : ℚ} (h : 0 ≤ q) : 0 ≤ jsRound q := by
  refine Int.le_floor.mpr ?_
  push_cast
  linarith

theorem jsRound_coe_le (q : ℚ) : (jsRound q : ℚ) ≤ q + 1 / 2 :=
  Int.floor_le (q + 1 / 2)

theorem lt_jsRound_coe (q : ℚ) : q - 1 / 2 < (jsRound q : ℚ) := by
  have := Int.lt_floor_add_one (q + 1 / 2)
  unfold jsRound
  linarith

theorem jsRound_le_int {q : ℚ} {n : ℤ} (h : q ≤ (n : ℚ)) : jsRound q ≤ n := by
  have hlt : ⌊q + 1 / 2⌋ < n + 1 := by
    refine Int.floor_lt.mpr ?_
    push_cast
    linarith
  unfold jsRound
  omega

theorem monthly_split (annualGeneration selfConsumptionRatio : ℚ)
    (m : MonthlyGeneration)
    (hm : m ∈ calculateMonthlyGeneration annualGeneration selfConsumptionRatio) :
    m.selfConsumedKwh + m.exportedKwh = m.generationKwh := by
  simp only [calculateMonthlyGeneration, List.mem_map] at hm
  obtain ⟨fi, -, rfl⟩ := hm
  dsimp only
  omega

/-- C1: for every result of calculateSolarEstimate, the annual
self-consumed/exported split sums back exactly to the annual generation; in
each of the twelve monthly entries the split sums back to that month's
generation; and the twelve distribution fractions of getMonthlyDistribution
sum to 1 within 0.01. -/
theorem C1_energy_split (inputs : CalculatorInputs) (irr : Option ℚ) :
    (calculateSolarEstimate inputs irr).selfConsumedKwh +
        (calculateSolarEstimate inputs irr).exportedKwh =
      (calculateSolarEstimate inputs irr).estimatedAnnualGeneration ∧
    (∀ m ∈ (calculateSolarEstimate inputs irr).monthlyGeneration,
      m.selfConsumedKwh + m.exportedKwh = m.generationKwh) ∧
    |getMonthlyDistribution.sum - 1| ≤ 1 / 100 := by
  refine ⟨?_, ?_, ?_⟩
  · simp only [calculateSolarEstimate]
    omega
  · simp only [calculateSolarEstimate]
    exact fun m hm => monthly_split _ _ m hm
  · have hsum : getMonthlyDistribution.sum = 1 := by
      norm_num [getMonthlyDistribution]
    rw [hsum]
    norm_num

/-- C2 counterexample: a negative system cost with a positive benefit makes
calculatePaybackPeriod return a negative payback, so the claim's "never
returns a negative payback" fails without a sign restriction on the cost. -/
theorem C2_counterexample :
    calculatePaybackPeriod (-100) 10 = some (-10) ∧ ((-10 : ℚ) < 0) := by
  norm_num [calculatePaybackPeriod, jsRound]

/-- C2 amended: calculatePaybackPeriod returns the infinity sentinel (`none`)
exactly when the benefit is nonpositive, otherwise the quotient rounded to
one decimal; and the result is nonnegative whenever the system cost is
nonnegative. -/
theorem C2_payback_contract (systemCost annualBenefit : ℚ) :
    (annualBenefit ≤ 0 →
      calculatePaybackPeriod systemCost annualBenefit = none) ∧
    (0 < annualBenefit →
      calculatePaybackPeriod systemCost annualBenefit =
        some ((jsRound (systemCost / annualBenefit * 10) : ℚ) / 10)) ∧
    (0 ≤ systemCost → 0 < annualBenefit →
      ∀ p, calculatePaybackPeriod systemCost annualBenefit = some p →
        0 ≤ p) := by
  refine ⟨fun h => if_pos h, fun h => if_neg (not_le.mpr h), ?_⟩
  intro hc hb p hp
  rw [calculatePaybackPeriod, if_neg (not_le.mpr hb)] at hp
  have hq : (0 : ℚ) ≤ systemCost / annualBenefit * 10 := by positivity
  have := jsRound_nonneg hq
  have hp' : p = (jsRound (systemCost / annualBenefit * 10) : ℚ) / 10 :=
    (Option.some_injective ℚ hp).symm
  rw [hp']
  positivity

/-! Bounds of the eight scoring factors, under the stated sign conditions on
the result fields they read. -/

theorem systemSizePoints_bounds (results : CalculatorResults)
    (h : 0 ≤ results.recommendedSystemSize) :
    0 ≤ systemSizePoints results ∧ systemSizePoints results ≤ 20 := by
  unfold systemSizePoints SCORING_WEIGHTS
  have hq : (0 : ℚ) ≤ results.recommendedSystemSize / 6 * (((20 : ℤ) : ℚ)) := by
    positivity
  exact ⟨le_min (by norm_num) (jsRound_nonneg hq), min_le_left _ _⟩

theorem paybackScore_bounds (results : CalculatorResults) :
    0 ≤ paybackScore results ∧ paybackScore results ≤ 20 := by
  unfold paybackScore SCORING_WEIGHTS
  cases hp : results.paybackPeriod with
  | none => norm_num
  | some p =>
    by_cases h7 : p ≤ 7
    · simp [h7]
    · by_cases h15 : (15 : ℚ) ≤ p
      · simp [h7, h15]
      · simp only [h7, if_false, h15]
        push_cast
        constructor
        · exact jsRound_nonneg (by nlinarith [not_le.mp h15])
        · exact jsRound_le_int (by push_cast; nlinarith [not_le.mp h7])

theorem savingsPoints_bounds (results : CalculatorResults)
    (h : 0 ≤ results.totalAnnualBenefit) :
    0 ≤ savingsPoints results ∧ savingsPoints results ≤ 15 := by
  unfold savingsPoints SCORING_WEIGHTS
  have hq : (0 : ℚ) ≤ results.totalAnnualBenefit / 500 * (((15 : ℤ) : ℚ)) := by
    positivity
  exact ⟨le_min (by norm_num) (jsRound_nonneg hq), min_le_left _ _⟩

theorem phonePoints_bounds (contact : LeadContact) :
    0 ≤ phonePoints contact ∧ phonePoints contact ≤ 15 := by
  unfold phonePoints SCORING_WEIGHTS
  split <;> norm_num

theorem namePoints_bounds (contact : LeadContact) :
    0 ≤ namePoints contact ∧ namePoints contact ≤ 5 := by
  unfold namePoints SCORING_WEIGHTS
  split <;> norm_num

theorem selfConsumptionPoints_bounds (results : CalculatorResults)
    (h0 : 0 ≤ results.selfConsumptionRatio)
    (h1 : results.selfConsumptionRatio ≤ 1) :
    0 ≤ selfConsumptionPoints results ∧ selfConsumptionPoints results ≤ 10 := by
  unfold selfConsumptionPoints SCORING_WEIGHTS
  have hlow : (0 : ℚ) ≤ results.selfConsumptionRatio * (((10 : ℤ) : ℚ)) := by
    positivity
  have hhigh : results.selfConsumptionRatio * (((10 : ℤ) : ℚ)) ≤ ((10 : ℤ) : ℚ) := by
    push_cast
    nlinarith
  exact ⟨jsRound_nonneg hlow, jsRound_le_int hhigh⟩

theorem roofAreaPoints_bounds (results : CalculatorResults)
    (h : 0 ≤ results.numberOfPanels) :
    0 ≤ roofAreaPoints results ∧ roofAreaPoints results ≤ 10 := by
  unfold roofAreaPoints SCORING_WEIGHTS
  by_cases h12 : (12 : ℤ) ≤ results.numberOfPanels
  · simp [h12]
  · have hpan : (results.numberOfPanels : ℚ) ≤ 12 := by
      exact_mod_cast le_of_lt (not_le.mp h12)
    have hpan0 : (0 : ℚ) ≤ (results.numberOfPanels : ℚ) := by exact_mod_cast h
    have hlow : (0 : ℚ) ≤ (results.numberOfPanels : ℚ) / 12 * (((10 : ℤ) : ℚ)) := by
      positivity
    have hhigh : (results.numberOfPanels : ℚ) / 12 * (((10 : ℤ) : ℚ)) ≤
        ((10 : ℤ) : ℚ) := by
      push_cast
      nlinarith
    simp only [h12, if_false]
    exact ⟨jsRound_nonneg hlow, jsRound_le_int hhigh⟩

theorem usagePoints_bounds (results : CalculatorResults)
    (h : 0 ≤ results.estimatedAnnualGeneration) :
    0 ≤ usagePoints results ∧ usagePoints results ≤ 5 := by
  unfold usagePoints SCORING_WEIGHTS
  have hgen : (0 : ℚ) ≤ (results.estimatedAnnualGeneration : ℚ) := by
    exact_mod_cast h
  have hq : (0 : ℚ) ≤ (results.estimatedAnnualGeneration : ℚ) / 4000 *
      (((5 : ℤ) : ℚ)) := by
    positivity
  exact ⟨le_min (by norm_num) (jsRound_nonneg hq), min_le_left _ _⟩

/-- C3 counterexample: an arbitrary (not engine-produced) `CalculatorResults`
with a negative `recommendedSystemSize` drives the total score to -20, below
0, because the system-size factor's `min` cap bounds it only from above. -/
theorem C3_counterexample :
    (calculateLeadScore c3BadResults c4EmailContact).totalScore = -20 ∧
    (calculateLeadScore c3BadResults c4EmailContact).totalScore < 0 := by
  norm_num [calculateLeadScore, leadTotalScore, systemSizePoints, paybackScore,
    savingsPoints, phonePoints, namePoints, selfConsumptionPoints,
    roofAreaPoints, usagePoints, c3BadResults, c4Results, c4EmailContact,
    SCORING_WEIGHTS, jsRound, jsTruthyStr]

/-- C3 amended: the eight-factor list always has exactly the 8 fixed names in
order; the total score lies in [0, 100] for every contact and every result
whose scored fields are in their documented ranges (nonnegative size,
benefit, panel count and generation, self-consumption ratio in [0, 1]) —
for arbitrary out-of-range result values the total can leave [0, 100], since
the per-factor caps bound each factor from above only and the
self-consumption factor is not capped at all. -/
theorem C3_lead_score_bounds (results : CalculatorResults)
    (contact : LeadContact)
    (hsize : 0 ≤ results.recommendedSystemSize)
    (hben : 0 ≤ results.totalAnnualBenefit)
    (hscr0 : 0 ≤ results.selfConsumptionRatio)
    (hscr1 : results.selfConsumptionRatio ≤ 1)
    (hpan : 0 ≤ results.numberOfPanels)
    (hgen : 0 ≤ results.estimatedAnnualGeneration) :
    0 ≤ (calculateLeadScore results contact).totalScore ∧
    (calculateLeadScore results contact).totalScore ≤ 100 ∧
    (calculateLeadScore results contact).factors.map LeadScoreFactor.name =
      ["System Size", "Payback Period", "Annual Savings", "Phone Provided",
       "Name Provided", "Self-Consumption", "Roof Area", "Usage Level"] := by
  have h1 := systemSizePoints_bounds results hsize
  have h2 := paybackScore_bounds results
  have h3 := savingsPoints_bounds results hben
  have h4 := phonePoints_bounds contact
  have h5 := namePoints_bounds contact
  have h6 := selfConsumptionPoints_bounds results hscr0 hscr1
  have h7 := roofAreaPoints_bounds results hpan
  have h8 := usagePoints_bounds results hgen
  have htot : (calculateLeadScore results contact).totalScore =
      leadTotalScore results contact := rfl
  refine ⟨?_, ?_, rfl⟩
  · rw [htot]
    unfold leadTotalScore
    omega
  · rw [htot]
    unfold leadTotalScore
    omega

/-- C3 witness: the bounds at the spec's example results with a full
contact. -/
theorem C3_lead_score_bounds_witness :
    0 ≤ (calculateLeadScore c4Results c4FullContact).totalScore ∧
    (calculateLeadScore c4Results c4FullContact).totalScore ≤ 100 ∧
    (calculateLeadScore c4Results c4FullContact).factors.map
        LeadScoreFactor.name =
      ["System Size", "Payback Period", "Annual Savings", "Phone Provided",
       "Name Provided", "Self-Consumption", "Roof Area", "Usage Level"] :=
  C3_lead_score_bounds c4Results c4FullContact (by norm_num [c4Results])
    (by norm_num [c4Results]) (by norm_num [c4Results])
    (by norm_num [c4Results]) (by norm_num [c4Results])
    (by norm_num [c4Results])

/-- C4 counterexample: on the spec's example results, removing phone and
name drops the total by exactly 20 points (15 + 5), not 35, and the
email-only score is 75, which is still `hot`, not `warm`. -/
theorem C4_counterexample :
    (calculateLeadScore c4Results c4FullContact).totalScore = 95 ∧
    (calculateLeadScore c4Results c4EmailContact).totalScore = 75 ∧
    (calculateLeadScore c4Results c4EmailContact).category ≠
      LeadCategory.warm := by
  have hphone : jsTruthyStr (some "07700900000") = true := rfl
  have hname : jsTruthyStr (some "Alex") = true := rfl
  have hnone : jsTruthyStr none = false := rfl
  refine ⟨?_, ?_, ?_⟩
  · norm_num [calculateLeadScore, leadTotalScore, systemSizePoints,
      paybackScore, savingsPoints, phonePoints, namePoints,
      selfConsumptionPoints, roofAreaPoints, usagePoints, c4Results,
      c4FullContact, SCORING_WEIGHTS, jsRound, hphone, hname]
  · norm_num [calculateLeadScore, leadTotalScore, systemSizePoints,
      paybackScore, savingsPoints, phonePoints, namePoints,
      selfConsumptionPoints, roofAreaPoints, usagePoints, c4Results,
      c4EmailContact, SCORING_WEIGHTS, jsRound, hnone]
  · have hcat : (calculateLeadScore c4Results c4EmailContact).category =
        LeadCategory.hot := by
      norm_num [calculateLeadScore, leadTotalScore, systemSizePoints,
        paybackScore, savingsPoints, phonePoints, namePoints,
        selfConsumptionPoints, roofAreaPoints, usagePoints, c4Results,
        c4EmailContact, SCORING_WEIGHTS, SCORE_THRESHOLDS, jsRound, hnone]
    rw [hcat]
    exact fun h => LeadCategory.noConfusion h

/-- C4 amended: the example results with phone and name score 95 (`hot`);
with only an email the total is exactly 20 points lower (the phone factor's
15 plus the name factor's 5), and at 75 the lead is still `hot`. -/
theorem C4_scores :
    (calculateLeadScore c4Results c4FullContact).totalScore = 95 ∧
    (calculateLeadScore c4Results c4FullContact).category = LeadCategory.hot ∧
    (calculateLeadScore c4Results c4EmailContact).totalScore =
      (calculateLeadScore c4Results c4FullContact).totalScore - 20 ∧
    (calculateLeadScore c4Results c4EmailContact).category =
      LeadCategory.hot := by
  have hphone : jsTruthyStr (some "07700900000") = true := rfl
  have hname : jsTruthyStr (some "Alex") = true := rfl
  have hnone : jsTruthyStr none = false := rfl
  norm_num [calculateLeadScore, leadTotalScore, systemSizePoints,
    paybackScore, savingsPoints, phonePoints, namePoints,
    selfConsumptionPoints, roofAreaPoints, usagePoints, c4Results,
    c4FullContact, c4EmailContact, SCORING_WEIGHTS, SCORE_THRESHOLDS,
    jsRound, hphone, hname, hnone]

/-- C8 counterexample: rounding to the nearest 0.5 kWp can round up past the
roof maximum: with recommended 10 and maximum 3.8, the returned size is 4.0,
which exceeds the maximum. -/
theorem C8_counterexample :
    determineFinalSystemSize 10 (38 / 10) = 4 ∧ ((38 : ℚ) / 10 < 4) := by
  norm_num [determineFinalSystemSize, jsRound, min_def]

/-- C8 amended: the returned size is `min(recommended, max)` rounded to the
nearest 0.5 kWp with halves rounded up — a half-integer within
(min - 1/4, min + 1/4] — so it never exceeds the roof maximum by more than
0.25 kWp (but can exceed it by up to that much). -/
theorem C8_final_size (recommendedKwp maxKwp : ℚ) :
    (∃ m : ℤ, determineFinalSystemSize recommendedKwp maxKwp = (m : ℚ) / 2 ∧
      min recommendedKwp maxKwp * 2 - 1 / 2 < (m : ℚ) ∧
      (m : ℚ) ≤ min recommendedKwp maxKwp * 2 + 1 / 2) ∧
    determineFinalSystemSize recommendedKwp maxKwp ≤ maxKwp + 1 / 4 := by
  have hle := jsRound_coe_le (min recommendedKwp maxKwp * 2)
  have hlt := lt_jsRound_coe (min recommendedKwp maxKwp * 2)
  have hmin : min recommendedKwp maxKwp ≤ maxKwp := min_le_right _ _
  unfold determineFinalSystemSize
  exact ⟨⟨jsRound (min recommendedKwp maxKwp * 2), rfl, by linarith,
    by linarith⟩, by linarith⟩

/-- C9 counterexample: the regional table does fall through to its named
default (950) on an unknown region, but the orientation and self-consumption
records hold no default entry at all: a non-enumerated runtime key reads as
JavaScript `undefined` (`none`), not as a defined default value. -/
theorem C9_counterexample :
    getRegionalIrradiance "Atlantis" = 950 ∧
    getOrientationFactorRaw "SSW" = none ∧
    getSelfConsumptionRaw "nights" = none := by
  refine ⟨rfl, rfl, rfl⟩

/-- C9 amended: getRegionalIrradiance returns the table's named default
entry (950) on any key missing from the table; the orientation and
self-consumption lookups are total over their enumerated TypeScript domains
(each enumerated key reads the table value), but hold no default entry for
non-enumerated runtime keys. -/
theorem C9_lookup_defaults (region : String)
    (hmiss : lookupStr REGIONAL_IRRADIANCE region = none) :
    getRegionalIrradiance region = 950 ∧
    (∀ o : RoofOrientation,
      getOrientationFactorRaw o.key = some (getOrientationFactor o)) ∧
    (∀ occ : HomeOccupancy,
      getSelfConsumptionRaw occ.key = some (calculateSelfConsumption occ)) := by
  refine ⟨?_, ?_, ?_⟩
  · unfold getRegionalIrradiance
    rw [hmiss]
    rfl
  · intro o
    cases o <;> rfl
  · intro occ
    cases occ <;> rfl

/-- C9 witness: the amended lookup contract at the unknown region
"Atlantis". -/
theorem C9_lookup_defaults_witness :
    getRegionalIrradiance "Atlantis" = 950 ∧
    (∀ o : RoofOrientation,
      getOrientationFactorRaw o.key = some (getOrientationFactor o)) ∧
    (∀ occ : HomeOccupancy,
      getSelfConsumptionRaw occ.key = some (calculateSelfConsumption occ)) :=
  C9_lookup_defaults "Atlantis" rfl

/-- C10: a zero (falsy) irradiance argument is treated like an absent one —
the UK-average fallback is used and tagged UK_AVERAGE — and zero rate
overrides are likewise ignored in favour of the energy-pricing defaults,
because the source resolves them with `||` truthiness. -/
theorem C10_truthiness (inputs : CalculatorInputs) (irr : Option ℚ) :
    ((calculateSolarEstimate inputs (some 0)).metadata.irradianceSource =
      IrradianceSource.UK_AVERAGE) ∧
    ((calculateSolarEstimate inputs (some 0)).metadata.irradianceUsed =
      SOLAR_CONFIG.ukAverageIrradiance) ∧
    ((calculateSolarEstimate { inputs with electricityUnitRate := some 0 }
        irr).metadata.electricityRate =
      UK_ENERGY_CONFIG.electricityRatePence) ∧
    ((calculateSolarEstimate { inputs with exportTariffRate := some 0 }
        irr).metadata.exportRate =
      UK_ENERGY_CONFIG.segExportRatePence) := by
  refine ⟨?_, ?_, ?_, ?_⟩ <;>
    simp [calculateSolarEstimate, jsOrDefault, jsTruthyNum]

/-! Helper lemmas for the 25-year ROI loop. -/

theorem jsRound_pos {q : ℚ} (h : 1 / 2 ≤ q) : 0 < jsRound q := by
  have h1 : (1 : ℤ) ≤ ⌊q + 1 / 2⌋ := by
    refine Int.le_floor.mpr ?_
    push_cast
    linarith
  unfold jsRound
  omega

theorem range25 : List.range 25 =
    [0, 1, 2, 3, 4, 5, 6, 7, 8, 9, 10, 11, 12, 13, 14, 15, 16, 17, 18, 19,
     20, 21, 22, 23, 24] := rfl

theorem roiTotalBenefit_eq (g c e x : ℚ) :
    roiTotalBenefit g c e x = firstYearBenefit g c e x * degradedYearsSum := by
  unfold roiTotalBenefit degradedYearsSum firstYearBenefit
  rw [range25]
  simp only [List.foldl]
  ring

theorem degradedYearsSum_lt_24 : degradedYearsSum < 24 := by
  unfold degradedYearsSum
  rw [range25]
  simp only [List.foldl]
  norm_num [SOLAR_CONFIG]

theorem lt_degradedYearsSum : 23 < degradedYearsSum := by
  unfold degradedYearsSum
  rw [range25]
  simp only [List.foldl]
  norm_num [SOLAR_CONFIG]

/-- C6 counterexample: with zero annual generation the yearly benefits are
all zero, degradation has nothing to reduce, and the ROI equals the naive
projection exactly (both are -cost), so the strict inequality of the claim
fails even though the configured degradation rate is positive. -/
theorem C6_counterexample :
    0 < SOLAR_CONFIG.annualDegradation ∧
    ¬((calculateROI25Years 0 (1 / 2) 20 10 100 : ℚ) <
      firstYearBenefit 0 (1 / 2) 20 10 * 25 - 100) := by
  constructor
  · norm_num [SOLAR_CONFIG]
  · have h : calculateROI25Years 0 (1 / 2) 20 10 100 = -100 := by
      unfold calculateROI25Years roiTotalBenefit
      rw [range25]
      norm_num [jsRound, SOLAR_CONFIG]
    rw [h]
    norm_num [firstYearBenefit]

/-- C6 amended: the configured degradation rate is strictly positive, and
whenever the undegraded first-year benefit is at least £0.50 the 25-year ROI
is strictly below the naive linear projection `annualBenefit * 25 - cost`
(for a smaller benefit the gap degradation opens can vanish inside the final
rounding, as the zero-generation counterexample shows). -/
theorem C6_roi_degradation (g c e x cost : ℚ)
    (hB : 1 / 2 ≤ firstYearBenefit g c e x) :
    0 < SOLAR_CONFIG.annualDegradation ∧
    (calculateROI25Years g c e x cost : ℚ) <
      firstYearBenefit g c e x * 25 - cost := by
  refine ⟨by norm_num [SOLAR_CONFIG], ?_⟩
  have hS : degradedYearsSum < 24 := degradedYearsSum_lt_24
  have hcal : (calculateROI25Years g c e x cost : ℚ) =
      (jsRound (roiTotalBenefit g c e x - cost) : ℚ) := rfl
  rw [hcal, roiTotalBenefit_eq g c e x]
  have hfloor := jsRound_coe_le
    (firstYearBenefit g c e x * degradedYearsSum - cost)
  have hkey : firstYearBenefit g c e x * degradedYearsSum + 1 / 2 <
      firstYearBenefit g c e x * 25 := by nlinarith
  linarith

/-- C6 witness: the amended ROI inequality at generation 1000, ratio 0.5,
rates 20p and 10p, cost 0 (first-year benefit £150). -/
theorem C6_roi_degradation_witness :
    0 < SOLAR_CONFIG.annualDegradation ∧
    (calculateROI25Years 1000 (1 / 2) 20 10 0 : ℚ) <
      firstYearBenefit 1000 (1 / 2) 20 10 * 25 - 0 :=
  C6_roi_degradation 1000 (1 / 2) 20 10 0 (by norm_num [firstYearBenefit])

/-- C7: the end-to-end example — South-facing, pitch 35, 30 m², unshaded,
3500 kWh/year, daytime occupancy, no irradiance argument — uses the
UK-average fallback (tagged UK_AVERAGE), recommends 3.5 kWp (strictly
between 2 and 8), has payback 7.1 years (strictly between 5 and 15), and a
positive 25-year ROI. -/
theorem C7_end_to_end :
    ((calculateSolarEstimate exampleInputs none).metadata.irradianceSource =
      IrradianceSource.UK_AVERAGE) ∧
    ((calculateSolarEstimate exampleInputs none).metadata.irradianceUsed =
      SOLAR_CONFIG.ukAverageIrradiance) ∧
    ((2 : ℚ) < (calculateSolarEstimate exampleInputs none).recommendedSystemSize ∧
      (calculateSolarEstimate exampleInputs none).recommendedSystemSize < 8) ∧
    ((calculateSolarEstimate exampleInputs none).paybackPeriod = some (71 / 10) ∧
      (5 : ℚ) < 71 / 10 ∧ (71 : ℚ) / 10 < 15) ∧
    0 < (calculateSolarEstimate exampleInputs none).roi25Years := by
  have hpf : getPitchFactor 35 = 1 := by
    norm_num [getPitchFactor, pitchScan, PITCH_FACTORS, min_def, max_def]
  have hsize : (calculateSolarEstimate exampleInputs none).recommendedSystemSize =
      7 / 2 := by
    simp only [calculateSolarEstimate]
    norm_num [exampleInputs, getOrientationFactor, SOLAR_CONFIG, hpf,
      jsOrDefault, calculateMaxSystemSize, calculateRecommendedSize,
      determineFinalSystemSize, jsRound, min_def]
  have hpay : (calculateSolarEstimate exampleInputs none).paybackPeriod =
      some (71 / 10) := by
    simp only [calculateSolarEstimate]
    norm_num [exampleInputs, getOrientationFactor, SOLAR_CONFIG,
      UK_ENERGY_CONFIG, SYSTEM_COST_CONFIG, hpf, jsOrDefault,
      calculateMaxSystemSize, calculateRecommendedSize,
      determineFinalSystemSize, calculateAnnualGeneration,
      calculateSelfConsumption, calculateAnnualSavings,
      calculateExportEarnings, calculateSystemCost, calculatePaybackPeriod,
      jsRound, min_def]
  have hroi : (calculateSolarEstimate exampleInputs none).roi25Years =
      calculateROI25Years 3010 (1 / 2) (2769 / 100) 15 4550 := by
    simp only [calculateSolarEstimate]
    norm_num [exampleInputs, getOrientationFactor, SOLAR_CONFIG,
      UK_ENERGY_CONFIG, SYSTEM_COST_CONFIG, hpf, jsOrDefault,
      calculateMaxSystemSize, calculateRecommendedSize,
      determineFinalSystemSize, calculateAnnualGeneration,
      calculateSelfConsumption, calculateSystemCost, jsRound, min_def]
  have hroipos : 0 < calculateROI25Years 3010 (1 / 2) (2769 / 100) 15 4550 := by
    have hS := lt_degradedYearsSum
    have hB : firstYearBenefit 3010 (1 / 2) (2769 / 100) 15 =
        1284969 / 2000 := by
      norm_num [firstYearBenefit]
    unfold calculateROI25Years
    apply jsRound_pos
    rw [roiTotalBenefit_eq, hB]
    linarith
  refine ⟨rfl, rfl, ?_, ⟨hpay, by norm_num, by norm_num⟩, ?_⟩
  · rw [hsize]
    norm_num
  · rw [hroi]
    exact hroipos

/-! Helper lemmas for the pitch-factor interpolation scan. -/

theorem pitchScan_skip {l fl u fu : ℚ} {rest : List (ℚ × ℚ)} {p : ℚ}
    (h : u < p) :
    pitchScan ((l, fl) :: (u, fu) :: rest) p = pitchScan ((u, fu) :: rest) p := by
  simp only [pitchScan]
  rw [if_neg]
  rintro ⟨-, h2⟩
  linarith

theorem pitchScan_hit {l fl u fu : ℚ} {rest : List (ℚ × ℚ)} {p : ℚ}
    (h1 : l ≤ p) (h2 : p ≤ u) :
    pitchScan ((l, fl) :: (u, fu) :: rest) p =
      some (fl + (p - l) / (u - l) * (fu - fl)) := by
  simp only [pitchScan]
  rw [if_pos ⟨h1, h2⟩]

theorem clamp_eq {x : ℚ} (h0 : 0 ≤ x) (h90 : x ≤ 90) :
    max 0 (min 90 x) = x := by
  rw [min_eq_right h90, max_eq_right h0]

theorem interp_eq {l u fl fu p : ℚ} (hfl : fl = fu) :
    fl + (p - l) / (u - l) * (fu - fl) = fl := by
  subst hfl
  ring

theorem interp_strict_between {l u fl fu p : ℚ} (_hlu : l < u) (h1 : l < p)
    (h2 : p < u) (hne : fl ≠ fu) :
    min fl fu < fl + (p - l) / (u - l) * (fu - fl) ∧
    fl + (p - l) / (u - l) * (fu - fl) < max fl fu := by
  have hr0 : 0 < (p - l) / (u - l) := div_pos (by linarith) (by linarith)
  have hr1 : (p - l) / (u - l) < 1 := (div_lt_one (by linarith)).mpr (by linarith)
  rcases lt_or_gt_of_ne hne with h | h
  · rw [min_eq_left h.le, max_eq_right h.le]
    constructor
    · nlinarith [mul_pos hr0 (sub_pos.mpr h)]
    · nlinarith [mul_pos (sub_pos.mpr hr1) (sub_pos.mpr h)]
  · rw [min_eq_right h.le, max_eq_left h.le]
    constructor
    · nlinarith [mul_pos (sub_pos.mpr hr1) (sub_pos.mpr h)]
    · nlinarith [mul_pos hr0 (sub_pos.mpr h)]

theorem pitchIntervals_eq : pitchIntervals =
    [((0, 0.9), (10, 0.94)), ((10, 0.94), (15, 0.96)),
     ((15, 0.96), (20, 0.98)), ((20, 0.98), (25, 0.99)),
     ((25, 0.99), (30, 1)), ((30, 1), (35, 1)), ((35, 1), (40, 0.99)),
     ((40, 0.99), (45, 0.97)), ((45, 0.97), (50, 0.94)),
     ((50, 0.94), (60, 0.88)), ((60, 0.88), (70, 0.8)),
     ((70, 0.8), (80, 0.7)), ((80, 0.7), (90, 0.55))] := rfl

/-- C5 counterexample: 32 lies strictly between the neighboring anchors 30
and 35, whose table values are both 1.0; getPitchFactor 32 is 1.0, and no
value is strictly between 1.0 and 1.0, so the claim's strict-betweenness
fails on that anchor interval. -/
theorem C5_counterexample :
    (((30 : ℚ), (1 : ℚ)), ((35 : ℚ), (1 : ℚ))) ∈ pitchIntervals ∧
    (30 : ℚ) < 32 ∧ (32 : ℚ) < 35 ∧ getPitchFactor 32 = 1 ∧
    ¬(min (1 : ℚ) 1 < getPitchFactor 32 ∧
      getPitchFactor 32 < max (1 : ℚ) 1) := by
  have h32 : getPitchFactor 32 = 1 := by
    norm_num [getPitchFactor, pitchScan, PITCH_FACTORS, min_def, max_def]
  refine ⟨by norm_num [pitchIntervals_eq], by norm_num, by norm_num, h32, ?_⟩
  rw [h32]
  norm_num

/-- C5 amended: getPitchFactor clamps the pitch to [0, 90] (it is invariant
under the clamp); it returns the table's exact value at every anchor; and
between two neighboring anchors it returns a value strictly between the two
anchor values whenever those differ — when the two anchor values are equal
(the 30–35 plateau at 1.0) it returns that common value. -/
theorem C5_pitch_factor (p : ℚ) :
    getPitchFactor p = getPitchFactor (max 0 (min 90 p)) ∧
    (∀ a ∈ PITCH_FACTORS, getPitchFactor a.1 = a.2) ∧
    (∀ pr ∈ pitchIntervals, pr.1.1 < p → p < pr.2.1 →
      (pr.1.2 = pr.2.2 → getPitchFactor p = pr.1.2) ∧
      (pr.1.2 ≠ pr.2.2 →
        min pr.1.2 pr.2.2 < getPitchFactor p ∧
        getPitchFactor p < max pr.1.2 pr.2.2)) := by
  refine ⟨?_, ?_, ?_⟩
  · have hid : max 0 (min 90 (max 0 (min 90 p))) = max 0 (min 90 p) :=
      clamp_eq (le_max_left 0 _) (max_le (by norm_num) (min_le_left _ _))
    simp only [getPitchFactor, hid]
  · intro a ha
    simp only [PITCH_FACTORS] at ha
    fin_cases ha <;>
      norm_num [getPitchFactor, pitchScan, PITCH_FACTORS, min_def, max_def]
  · intro pr hpr
    rw [pitchIntervals_eq] at hpr
    fin_cases hpr <;>
    · intro h1 h2
      dsimp only at h1 h2 ⊢
      have hc : max 0 (min 90 p) = p :=
        clamp_eq (by linarith) (by linarith)
      simp only [getPitchFactor, hc, PITCH_FACTORS]
      repeat rw [pitchScan_skip (by linarith)]
      rw [pitchScan_hit (by linarith) (by linarith)]
      simp only [Option.getD_some]
      constructor
      · intro hfl
        first
        | exact interp_eq hfl
        | exact interp_eq rfl
      · intro hne
        exact interp_strict_between (by norm_num) h1 h2 hne

/-- C5 witness: the amended interpolation contract on the interval (35, 40)
at pitch 37, whose anchor values 1.0 and 0.99 differ. -/
theorem C5_pitch_factor_witness :
    min (1 : ℚ) 0.99 < getPitchFactor 37 ∧
    getPitchFactor 37 < max (1 : ℚ) 0.99 := by
  have h := ((C5_pitch_factor 37).2.2 ((35, 1), (40, 0.99))
    (by norm_num [pitchIntervals_eq]) (by norm_num) (by norm_num)).2
    (by norm_num)
  exact h

/-- C2 witness: the contract at cost 100, benefit 50 (payback 2.0). -/
theorem C2_payback_contract_witness : (0 : ℚ) ≤ 2 := by
  have h := (C2_payback_contract 100 50).2.2 (by norm_num) (by norm_num)
  have h2 : calculatePaybackPeriod 100 50 = some 2 := by
    norm_num [calculatePaybackPeriod, jsRound]
  exact h 2 h2

end Solar
